import Mathlib

/-!
Shallow embedding of `src/decentralized_marketplace/decentralized_marketplace_asc1.py`
(PyTeal approval program of `SimpleMarketplaceASC1`), together with proofs about it.

Modelling conventions, matching the Algorand Virtual Machine semantics of the
compiled program:

* Byte strings (addresses, method names, raw arguments) are `List Nat` of bytes.
* The six global-store keys of `SimpleMarketplaceASC1.Variables` become the six
  fields of `State`.  `escrow_address` is `Option Bytes` because the code reads
  it with `App.globalGetEx` and branches on `hasValue`.  Reading it with plain
  `App.globalGet` (as `buy` does) yields the uint64 0 when the key is unset,
  and comparing that 0 with the byte-string `Gtxn[2].sender()` is a fatal
  type-mismatch error of the AVM, so `buy` aborts fatally whenever the escrow
  key is unset.
* A handler returns `Option (Bool × State)`:
  - `some (true, st)`  : the program reaches `Return(Int(1))` (accept) with
    final global store `st`;
  - `some (false, st)` : the program reaches `Return(Int(0))` (soft reject);
    the pre-state is returned unchanged since no `App.globalPut` precedes it;
  - `none`             : the evaluation fails fatally (a failed `Assert`, an
    out-of-range `Txn.application_args[i]` or `Gtxn[i]` access, or the final
    `err` of a `Cond` none of whose conditions matched).
* PyTeal `And`/`Or` compile to TEAL `&&`/`||`, which evaluate all operands:
  there is no short-circuiting inside a condition.  In particular the condition
  of `buy` always evaluates `Gtxn[0]`, `Gtxn[1]` and `Gtxn[2]`, which is a
  fatal error whenever the group has fewer than 3 transactions, even though the
  condition also compares `Global.group_size` with 3.  `Cond` branches, by
  contrast, are evaluated sequentially, so a later condition is only evaluated
  when every earlier one was false.
-/

namespace Marketplace

/-- Byte strings of the AVM (addresses, method names, raw arguments). -/
abbrev Bytes := List Nat

/-- ASCII bytes of a literal, used for the `Bytes("...")` constants of the
source. -/
def strBytes (s : String) : Bytes :=
  s.data.map Char.toNat

/-- One transaction record of a group, with the fields the program inspects
(`sender`, `type_enum`, `receiver`, `amount`, `asset_receiver`, `xfer_asset`,
`asset_amount`, `application_id`, `application_args`).  Fields irrelevant to a
given transaction type are zero-valued in the AVM, so every record carries all
of them. -/
structure TxnRecord where
  sender : Bytes
  typeEnum : Nat
  receiver : Bytes
  amount : Nat
  assetReceiver : Bytes
  xferAsset : Nat
  assetAmount : Nat
  applicationId : Nat
  applicationArgs : List Bytes
deriving DecidableEq

instance : Inhabited TxnRecord :=
  ⟨⟨[], 0, [], 0, [], 0, 0, 0, []⟩⟩

/-- An evaluation request: the ordered transaction group (`Gtxn`, whose length
is `Global.group_size()`) and the position in it of the application call being
evaluated (`Txn`). -/
structure EvalInput where
  group : List TxnRecord
  txnIndex : Nat
deriving DecidableEq

/-- The transaction being evaluated (`Txn` of the source).  In any real
evaluation `txnIndex < group.length`. -/
def EvalInput.txn (inp : EvalInput) : TxnRecord :=
  inp.group.getD inp.txnIndex default

/-- The six entries of the global store, keyed in the source by
`Variables.escrow_address`, `asa_id`, `asa_price`, `asa_owner`, `app_state`,
`app_admin`. -/
structure State where
  escrow_address : Option Bytes
  asa_id : Nat
  asa_price : Nat
  asa_owner : Bytes
  app_state : Nat
  app_admin : Bytes
deriving DecidableEq

/-- `AppState.not_initialized = Int(0)`. -/
def AppState.not_initialized : Nat := 0

/-- `AppState.active = Int(1)`. -/
def AppState.active : Nat := 1

/-- `AppState.selling_in_progress = Int(2)`. -/
def AppState.selling_in_progress : Nat := 2

/-- AVM transaction-type enum value of `TxnType.Payment`. -/
def TxnType.Payment : Nat := 1

/-- AVM transaction-type enum value of `TxnType.AssetTransfer`. -/
def TxnType.AssetTransfer : Nat := 4

/-- `Btoi`: big-endian decoding of a byte string into an integer.  The AVM
fails on an operand longer than 8 bytes (the result must fit in a `uint64`),
so the decode is `none` there and the evaluation that performs it aborts
fatally. -/
def btoi (b : Bytes) : Option Nat :=
  if b.length ≤ 8 then
    some (b.foldl (fun acc c => 256 * acc + c % 256) 0)
  else
    none

/-- `SimpleMarketplaceASC1.app_initialization`: `Assert` exactly 3 arguments
(a failed `Assert` is a fatal error), then store `app_state :=
not_initialized`, `asa_id := Btoi(args[0])` (fatal when `args[0]` exceeds 8
bytes), `asa_owner := args[1]`, `app_admin := args[2]` and accept. -/
def app_initialization (st : State) (inp : EvalInput) : Option (Bool × State) :=
  let args := inp.txn.applicationArgs
  if args.length = 3 then
    match btoi (args.getD 0 []) with
    | none => none
    | some v =>
        some (true,
          { st with
            app_state := AppState.not_initialized,
            asa_id := v,
            asa_owner := args.getD 1 [],
            app_admin := args.getD 2 [] })
  else
    none

/-- `SimpleMarketplaceASC1.initialize_escrow`: reject if the escrow key already
has a value, or the sender is not the stored admin, or the group size is not 1;
otherwise store `escrow_address := Txn.application_args[1]` (a fatal error when
fewer than 2 arguments were supplied), set `app_state := active` and accept. -/
def initialize_escrow (st : State) (inp : EvalInput) : Option (Bool × State) :=
  if st.escrow_address.isSome = true ∨ st.app_admin ≠ inp.txn.sender ∨
      inp.group.length ≠ 1 then
    some (false, st)
  else
    match inp.txn.applicationArgs.get? 1 with
    | none => none
    | some a1 =>
        some (true, { st with escrow_address := some a1,
                              app_state := AppState.active })

/-- `SimpleMarketplaceASC1.sell`: reject unless the group is a singleton, the
app state is `active` or `selling_in_progress`, the sender is the stored owner
and exactly 2 arguments were supplied; when all hold, store `asa_price :=
Btoi(args[1])` (fatal when `args[1]` exceeds 8 bytes) and `app_state :=
selling_in_progress`, then accept. -/
def sell (st : State) (inp : EvalInput) : Option (Bool × State) :=
  if inp.group.length = 1 ∧
      (st.app_state = AppState.active ∨
        st.app_state = AppState.selling_in_progress) ∧
      inp.txn.sender = st.asa_owner ∧
      inp.txn.applicationArgs.length = 2 then
    match btoi (inp.txn.applicationArgs.getD 1 []) with
    | none => none
    | some v =>
        some (true, { st with
          asa_price := v,
          app_state := AppState.selling_in_progress })
  else
    some (false, st)

/-- `SimpleMarketplaceASC1.buy`: the condition `can_buy` reads `Gtxn[0]`,
`Gtxn[1]` and `Gtxn[2]` unconditionally (TEAL `&&` evaluates both operands), so
a group of fewer than 3 transactions fails fatally; it also compares
`Gtxn[2].sender()` with `App.globalGet(ESCROW_ADDRESS)`, which is the uint64 0
when the escrow key is unset, and a uint64-vs-bytes `==` is a fatal
type-mismatch error, so an unset escrow also fails fatally.  Otherwise accept
iff the group size is exactly 3, the app state is `selling_in_progress`,
record 1 is a valid payment to the stored owner of the stored price sent by
the sender of record 0, who is also the asset receiver of record 2, and
record 2 is a valid transfer of one unit of the stored asset from the stored
escrow; on acceptance store `asa_owner := Gtxn[0].sender` and `app_state :=
active`. -/
def buy (st : State) (inp : EvalInput) : Option (Bool × State) :=
  match inp.group, st.escrow_address with
  | g0 :: g1 :: g2 :: _, some esc =>
      if inp.group.length = 3 ∧
          st.app_state = AppState.selling_in_progress ∧
          (g1.typeEnum = TxnType.Payment ∧
            g1.receiver = st.asa_owner ∧
            g1.amount = st.asa_price ∧
            g1.sender = g0.sender ∧
            g1.sender = g2.assetReceiver) ∧
          (g2.typeEnum = TxnType.AssetTransfer ∧
            g2.sender = esc ∧
            g2.xferAsset = st.asa_id ∧
            g2.assetAmount = 1) then
        some (true, { st with asa_owner := g0.sender,
                              app_state := AppState.active })
      else
        some (false, st)
  | _, _ => none

/-- `SimpleMarketplaceASC1.stop_selling`: accept iff the group is a singleton,
the sender is the stored owner and the app state is not `not_initialized`; on
acceptance store `app_state := active`. -/
def stop_selling (st : State) (inp : EvalInput) : Option (Bool × State) :=
  if inp.group.length = 1 ∧ inp.txn.sender = st.asa_owner ∧
      st.app_state ≠ AppState.not_initialized then
    some (true, { st with app_state := AppState.active })
  else
    some (false, st)

/-- `SimpleMarketplaceASC1.application_start`: the `Cond` dispatch.  Conditions
are evaluated sequentially; the first true one selects its handler.  Reading
`Txn.application_args[0]` of an argument-less non-creation call is a fatal
error, and so is falling off the end of the `Cond` (its compiled `err`). -/
def application_start (st : State) (inp : EvalInput) : Option (Bool × State) :=
  if inp.txn.applicationId = 0 then
    app_initialization st inp
  else
    match inp.txn.applicationArgs.get? 0 with
    | none => none
    | some a0 =>
        if a0 = strBytes "buy" then buy st inp
        else if a0 = strBytes "initializeEscrow" then initialize_escrow st inp
        else if a0 = strBytes "stopSelling" then stop_selling st inp
        else if a0 = strBytes "sell" then sell st inp
        else none

/-- One ledger step: an accepted group commits its new global store; a rejected
or fatally failed group leaves the store untouched. -/
def step (st : State) (inp : EvalInput) : State :=
  match application_start st inp with
  | some (true, st1) => st1
  | _ => st

/-- A sequence of ledger steps. -/
def run (st : State) (inps : List EvalInput) : State :=
  inps.foldl step st

/-- The buy handler fails fatally exactly when the group has fewer than 3
transactions (the compiled condition reads Gtxn[1] and Gtxn[2]
unconditionally) or the escrow key is unset (globalGet then yields the uint64
0, and comparing it with the bytes sender of Gtxn[2] is a type error). -/
lemma buy_eq_none_iff (st : State) (inp : EvalInput) :
    buy st inp = none ↔
      (inp.group.length < 3 ∨ st.escrow_address = none) := by
  rcases hE : st.escrow_address with _ | esc <;>
    rcases hG : inp.group with _ | ⟨g0, _ | ⟨g1, _ | ⟨g2, rest⟩⟩⟩ <;>
      simp [buy, hG, hE]
  split <;> simp

/-- Creation never writes the escrow key. -/
lemma app_initialization_preserves_escrow {st : State} {inp : EvalInput}
    {b : Bool} {st1 : State} (h : app_initialization st inp = some (b, st1)) :
    st1.escrow_address = st.escrow_address := by
  simp only [app_initialization] at h
  split at h
  · split at h
    · simp at h
    · simp only [Option.some.injEq, Prod.mk.injEq] at h
      obtain ⟨-, rfl⟩ := h
      rfl
  · simp at h

/-- The sell handler never writes the escrow key. -/
lemma sell_preserves_escrow {st : State} {inp : EvalInput}
    {b : Bool} {st1 : State} (h : sell st inp = some (b, st1)) :
    st1.escrow_address = st.escrow_address := by
  simp only [sell] at h
  split at h
  · split at h
    · simp at h
    · simp only [Option.some.injEq, Prod.mk.injEq] at h
      obtain ⟨-, rfl⟩ := h
      rfl
  · simp only [Option.some.injEq, Prod.mk.injEq] at h
    obtain ⟨-, rfl⟩ := h
    rfl

/-- The buy handler never writes the escrow key. -/
lemma buy_preserves_escrow {st : State} {inp : EvalInput}
    {b : Bool} {st1 : State} (h : buy st inp = some (b, st1)) :
    st1.escrow_address = st.escrow_address := by
  simp only [buy] at h
  split at h
  · split at h <;>
    · simp only [Option.some.injEq, Prod.mk.injEq] at h
      obtain ⟨-, rfl⟩ := h
      rfl
  · simp at h

/-- The stopSelling handler never writes the escrow key. -/
lemma stop_selling_preserves_escrow {st : State} {inp : EvalInput}
    {b : Bool} {st1 : State} (h : stop_selling st inp = some (b, st1)) :
    st1.escrow_address = st.escrow_address := by
  simp only [stop_selling] at h
  split at h <;>
  · simp only [Option.some.injEq, Prod.mk.injEq] at h
    obtain ⟨-, rfl⟩ := h
    rfl

/-- Once the escrow key holds a value, initializeEscrow rejects unconditionally and leaves the state untouched. -/
lemma initialize_escrow_already_set {st : State} (inp : EvalInput)
    {a : Bytes} (h : st.escrow_address = some a) :
    initialize_escrow st inp = some (false, st) := by
  simp [initialize_escrow, h]

/-- A set escrow address survives any single ledger step unchanged. -/
lemma step_preserves_escrow_some {st : State} {inp : EvalInput} {a : Bytes}
    (h : st.escrow_address = some a) :
    (step st inp).escrow_address = some a := by
  unfold step
  rcases hA : application_start st inp with _ | ⟨b, st1⟩
  · exact h
  · rcases b with _ | _
    · exact h
    · unfold application_start at hA
      split at hA
      · exact (app_initialization_preserves_escrow hA).trans h
      · split at hA
        · exact absurd hA (by simp)
        · split at hA
          · exact (buy_preserves_escrow hA).trans h
          · split at hA
            · rw [initialize_escrow_already_set inp h] at hA
              simp at hA
            · split at hA
              · exact (stop_selling_preserves_escrow hA).trans h
              · split at hA
                · exact (sell_preserves_escrow hA).trans h
                · exact absurd hA (by simp)

/-- A successful initializeEscrow leaves the app state Active. -/
lemma initialize_escrow_accept {st : State} {inp : EvalInput} {st1 : State}
    (h : initialize_escrow st inp = some (true, st1)) :
    st1.app_state = AppState.active := by
  simp only [initialize_escrow] at h
  split at h
  · simp at h
  · split at h
    · simp at h
    · simp only [Option.some.injEq, Prod.mk.injEq] at h
      obtain ⟨-, rfl⟩ := h
      rfl

/-- A successful sell leaves the app state SellingInProgress and requires it to have been Active or SellingInProgress. -/
lemma sell_accept {st : State} {inp : EvalInput} {st1 : State}
    (h : sell st inp = some (true, st1)) :
    st1.app_state = AppState.selling_in_progress ∧
    (st.app_state = AppState.active ∨
      st.app_state = AppState.selling_in_progress) := by
  simp only [sell] at h
  split at h
  case isTrue hc =>
    split at h
    · simp at h
    · simp only [Option.some.injEq, Prod.mk.injEq] at h
      obtain ⟨-, rfl⟩ := h
      exact ⟨rfl, hc.2.1⟩
  case isFalse hc => simp at h

/-- A successful buy leaves the app state Active and requires it to have been SellingInProgress. -/
lemma buy_accept {st : State} {inp : EvalInput} {st1 : State}
    (h : buy st inp = some (true, st1)) :
    st1.app_state = AppState.active ∧
    st.app_state = AppState.selling_in_progress := by
  simp only [buy] at h
  split at h
  · split at h
    case isTrue hc =>
      simp only [Option.some.injEq, Prod.mk.injEq] at h
      obtain ⟨-, rfl⟩ := h
      exact ⟨rfl, hc.2.1⟩
    case isFalse hc => simp at h
  · simp at h

/-- A successful stopSelling leaves the app state Active and requires it not to have been NotInitialized. -/
lemma stop_selling_accept {st : State} {inp : EvalInput} {st1 : State}
    (h : stop_selling st inp = some (true, st1)) :
    st1.app_state = AppState.active ∧
    st.app_state ≠ AppState.not_initialized := by
  simp only [stop_selling] at h
  split at h
  case isTrue hc =>
    simp only [Option.some.injEq, Prod.mk.injEq] at h
    obtain ⟨-, rfl⟩ := h
    exact ⟨rfl, hc.2.2⟩
  case isFalse hc => simp at h

/-- Any accepted non-creation call leaves the app state Active or SellingInProgress. -/
lemma application_start_accept {st : State} {inp : EvalInput} {st1 : State}
    (hId : inp.txn.applicationId ≠ 0)
    (hA : application_start st inp = some (true, st1)) :
    st1.app_state = AppState.active ∨
    st1.app_state = AppState.selling_in_progress := by
  simp only [application_start] at hA
  rw [if_neg hId] at hA
  split at hA
  · simp at hA
  · split at hA
    · exact Or.inl (buy_accept hA).1
    · split at hA
      · exact Or.inl (initialize_escrow_accept hA)
      · split at hA
        · exact Or.inl (stop_selling_accept hA).1
        · split at hA
          · exact Or.inr (sell_accept hA).1
          · simp at hA

/-- A non-creation ledger step never moves the app state back to NotInitialized. -/
lemma step_preserves_nonzero_state {st : State} {inp : EvalInput}
    (hId : inp.txn.applicationId ≠ 0)
    (h : st.app_state ≠ AppState.not_initialized) :
    (step st inp).app_state ≠ AppState.not_initialized := by
  rcases hA : application_start st inp with _ | ⟨b, st1⟩
  · unfold step
    rw [hA]
    exact h
  · rcases b with _ | _
    · unfold step
      rw [hA]
      exact h
    · have hstep : step st inp = st1 := by
        unfold step
        rw [hA]
      rw [hstep]
      rcases application_start_accept hId hA with h1 | h1 <;> rw [h1] <;> decide

/-- Writing Active into a state that is already Active is the identity on the whole record. -/
lemma state_set_active_self {st : State}
    (h : st.app_state = AppState.active) :
    { st with app_state := AppState.active } = st := by
  obtain ⟨a, b, c, d, e, f⟩ := st
  have h5 : e = AppState.active := h
  subst h5
  rfl

/-- Creation never writes the price key. -/
lemma app_initialization_preserves_price {st : State} {inp : EvalInput}
    {b : Bool} {st1 : State} (h : app_initialization st inp = some (b, st1)) :
    st1.asa_price = st.asa_price := by
  simp only [app_initialization] at h
  split at h
  · split at h
    · simp at h
    · simp only [Option.some.injEq, Prod.mk.injEq] at h
      obtain ⟨-, rfl⟩ := h
      rfl
  · simp at h

/-- The initializeEscrow handler never writes the price key. -/
lemma initialize_escrow_preserves_price {st : State} {inp : EvalInput}
    {b : Bool} {st1 : State} (h : initialize_escrow st inp = some (b, st1)) :
    st1.asa_price = st.asa_price := by
  simp only [initialize_escrow] at h
  split at h
  · simp only [Option.some.injEq, Prod.mk.injEq] at h
    obtain ⟨-, rfl⟩ := h
    rfl
  · split at h
    · simp at h
    · simp only [Option.some.injEq, Prod.mk.injEq] at h
      obtain ⟨-, rfl⟩ := h
      rfl

/-- The buy handler never writes the price key. -/
lemma buy_preserves_price {st : State} {inp : EvalInput}
    {b : Bool} {st1 : State} (h : buy st inp = some (b, st1)) :
    st1.asa_price = st.asa_price := by
  simp only [buy] at h
  split at h
  · split at h <;>
    · simp only [Option.some.injEq, Prod.mk.injEq] at h
      obtain ⟨-, rfl⟩ := h
      rfl
  · simp at h

/-- The stopSelling handler never writes the price key. -/
lemma stop_selling_preserves_price {st : State} {inp : EvalInput}
    {b : Bool} {st1 : State} (h : stop_selling st inp = some (b, st1)) :
    st1.asa_price = st.asa_price := by
  simp only [stop_selling] at h
  split at h <;>
  · simp only [Option.some.injEq, Prod.mk.injEq] at h
    obtain ⟨-, rfl⟩ := h
    rfl

/-- Claim C1 (amended). For every group of at least 3 records evaluated by buy
while the escrow key is set: the result is either a soft reject that returns
the pre-state unchanged or an acceptance, and it is an acceptance exactly when
the group size is 3, the lifecycle state is SellingInProgress, record 1 is a
payment to the stored owner of the stored price whose sender equals the sender
of record 0 and the asset receiver of record 2, and record 2 is an asset
transfer of exactly 1 unit of the stored asset from the stored escrow;
acceptance sets the owner to the sender of record 0 and the state to Active.
For a group of fewer than 3 records (out-of-range Gtxn access) or an unset
escrow key (uint64-vs-bytes comparison of the globalGet result), buy fails
fatally instead of rejecting; no field is written either way. -/
theorem buy_atomic_swap :
    (∀ (st : State) (inp : EvalInput) (g0 g1 g2 : TxnRecord)
        (rest : List TxnRecord) (esc : Bytes),
      inp.group = g0 :: g1 :: g2 :: rest →
      st.escrow_address = some esc →
      (buy st inp = some (false, st) ∨
        buy st inp = some (true,
          { st with asa_owner := g0.sender, app_state := AppState.active })) ∧
      (buy st inp = some (true,
          { st with asa_owner := g0.sender, app_state := AppState.active }) ↔
        (inp.group.length = 3 ∧
          st.app_state = AppState.selling_in_progress ∧
          (g1.typeEnum = TxnType.Payment ∧ g1.receiver = st.asa_owner ∧
            g1.amount = st.asa_price ∧ g1.sender = g0.sender ∧
            g1.sender = g2.assetReceiver) ∧
          (g2.typeEnum = TxnType.AssetTransfer ∧
            g2.sender = esc ∧
            g2.xferAsset = st.asa_id ∧ g2.assetAmount = 1)))) ∧
    (∀ (st : State) (inp : EvalInput),
      inp.group.length < 3 ∨ st.escrow_address = none →
      buy st inp = none) := by
  constructor
  · intro st inp g0 g1 g2 rest esc hG hEsc
    have hB : buy st inp =
        if (inp.group.length = 3 ∧
            st.app_state = AppState.selling_in_progress ∧
            (g1.typeEnum = TxnType.Payment ∧ g1.receiver = st.asa_owner ∧
              g1.amount = st.asa_price ∧ g1.sender = g0.sender ∧
              g1.sender = g2.assetReceiver) ∧
            (g2.typeEnum = TxnType.AssetTransfer ∧
              g2.sender = esc ∧
              g2.xferAsset = st.asa_id ∧ g2.assetAmount = 1)) then
          some (true, { st with asa_owner := g0.sender,
                                app_state := AppState.active })
        else some (false, st) := by
      simp only [buy, hG, hEsc]
    rw [hB]
    split
    case isTrue h => exact ⟨Or.inr rfl, ⟨fun _ => h, fun _ => rfl⟩⟩
    case isFalse h =>
      exact ⟨Or.inl rfl, ⟨fun hEq => by simp at hEq, fun hC => absurd hC h⟩⟩
  · intro st inp h
    exact (buy_eq_none_iff st inp).mpr h

/-- Claim C1 counterexample. In a SellingInProgress state, a buy evaluated over a group of size 1 (group size not equal to 3) does not produce the soft reject with unchanged state that the claim asserts: evaluation fails fatally. -/
theorem buy_small_group_fatal_cex :
    buy ⟨some [3], 42, 100, [1], 2, [2]⟩
        ⟨[⟨[4], 6, [], 0, [], 0, 0, 7, [[98, 117, 121]]⟩], 0⟩ = none ∧
    ¬ (buy ⟨some [3], 42, 100, [1], 2, [2]⟩
        ⟨[⟨[4], 6, [], 0, [], 0, 0, 7, [[98, 117, 121]]⟩], 0⟩ =
      some (false, ⟨some [3], 42, 100, [1], 2, [2]⟩)) := by
  decide

/-- Witness for the amended claim C1: a concrete well-shaped 3-record group is accepted with the owner and state update, and a concrete empty group fails fatally. -/
theorem buy_atomic_swap_witness :
    buy ⟨some [3], 42, 100, [1], 2, [2]⟩
        ⟨[⟨[4], 6, [], 0, [], 0, 0, 7, [[98, 117, 121]]⟩,
          ⟨[4], 1, [1], 100, [], 0, 0, 0, []⟩,
          ⟨[3], 4, [], 0, [4], 42, 1, 0, []⟩], 0⟩ =
      some (true, ⟨some [3], 42, 100, [4], 1, [2]⟩) ∧
    buy ⟨some [3], 42, 100, [1], 2, [2]⟩ ⟨[], 0⟩ = none := by
  constructor
  · exact (buy_atomic_swap.1 ⟨some [3], 42, 100, [1], 2, [2]⟩
      ⟨[⟨[4], 6, [], 0, [], 0, 0, 7, [[98, 117, 121]]⟩,
        ⟨[4], 1, [1], 100, [], 0, 0, 0, []⟩,
        ⟨[3], 4, [], 0, [4], 42, 1, 0, []⟩], 0⟩
      ⟨[4], 6, [], 0, [], 0, 0, 7, [[98, 117, 121]]⟩
      ⟨[4], 1, [1], 100, [], 0, 0, 0, []⟩
      ⟨[3], 4, [], 0, [4], 42, 1, 0, []⟩ [] [3] rfl rfl).2.mpr (by decide)
  · exact buy_atomic_swap.2 ⟨some [3], 42, 100, [1], 2, [2]⟩ ⟨[], 0⟩
      (Or.inl (by decide))

/-- Claim C2. Once the escrow address holds a value, every initializeEscrow call rejects without mutation regardless of caller, group size or arguments; no other handler ever writes the escrow address; hence over any sequence of ledger steps a set escrow address stays set to the same value, so it is written at most once. -/
theorem escrow_initialized_at_most_once :
    (∀ (st : State) (inp : EvalInput) (a : Bytes),
      st.escrow_address = some a →
      initialize_escrow st inp = some (false, st)) ∧
    (∀ (st : State) (inp : EvalInput) (b : Bool) (st1 : State),
      sell st inp = some (b, st1) ∨ buy st inp = some (b, st1) ∨
        stop_selling st inp = some (b, st1) ∨
        app_initialization st inp = some (b, st1) →
      st1.escrow_address = st.escrow_address) ∧
    (∀ (st : State) (a : Bytes) (inps : List EvalInput),
      st.escrow_address = some a →
      (run st inps).escrow_address = some a) := by
  refine ⟨fun st inp a h => initialize_escrow_already_set inp h, ?_, ?_⟩
  · rintro st inp b st1 (h | h | h | h)
    · exact sell_preserves_escrow h
    · exact buy_preserves_escrow h
    · exact stop_selling_preserves_escrow h
    · exact app_initialization_preserves_escrow h
  · intro st a inps
    revert st
    induction inps with
    | nil => intro st h; exact h
    | cons i t ih =>
        intro st h
        exact ih (step st i) (step_preserves_escrow_some h)

/-- Witness for claim C2 at a concrete state with the escrow already set. -/
theorem escrow_initialized_at_most_once_witness :
    initialize_escrow ⟨some [3], 42, 0, [1], 1, [2]⟩
        ⟨[⟨[2], 6, [], 0, [], 0, 0, 7,
            [[105, 110, 105, 116], [9, 9]]⟩], 0⟩ =
      some (false, ⟨some [3], 42, 0, [1], 1, [2]⟩) ∧
    (run ⟨some [3], 42, 0, [1], 1, [2]⟩
        [⟨[⟨[2], 6, [], 0, [], 0, 0, 7,
            [[105, 110, 105, 116], [9, 9]]⟩], 0⟩]).escrow_address =
      some [3] := by
  constructor
  · exact escrow_initialized_at_most_once.1 ⟨some [3], 42, 0, [1], 1, [2]⟩
      ⟨[⟨[2], 6, [], 0, [], 0, 0, 7,
          [[105, 110, 105, 116], [9, 9]]⟩], 0⟩ [3] rfl
  · exact escrow_initialized_at_most_once.2.2 ⟨some [3], 42, 0, [1], 1, [2]⟩
      [3] [⟨[⟨[2], 6, [], 0, [], 0, 0, 7,
          [[105, 110, 105, 116], [9, 9]]⟩], 0⟩] rfl

/-- Claim C3 (amended). Each of initializeEscrow, sell, buy and stopSelling
returns a soft reject with all six persistent fields unchanged on every input
group that fails its preconditions and on which evaluation completes; for buy,
completion requires at least 3 records in the group and a set escrow key, a
shorter group or an unset escrow failing fatally instead. -/
theorem handlers_reject_without_mutation :
    (∀ (st : State) (inp : EvalInput),
      ¬ (st.escrow_address = none ∧ st.app_admin = inp.txn.sender ∧
          inp.group.length = 1) →
      initialize_escrow st inp = some (false, st)) ∧
    (∀ (st : State) (inp : EvalInput),
      ¬ (inp.group.length = 1 ∧
          (st.app_state = AppState.active ∨
            st.app_state = AppState.selling_in_progress) ∧
          inp.txn.sender = st.asa_owner ∧
          inp.txn.applicationArgs.length = 2) →
      sell st inp = some (false, st)) ∧
    (∀ (st : State) (inp : EvalInput) (g0 g1 g2 : TxnRecord)
        (rest : List TxnRecord) (esc : Bytes),
      inp.group = g0 :: g1 :: g2 :: rest →
      st.escrow_address = some esc →
      ¬ (inp.group.length = 3 ∧
          st.app_state = AppState.selling_in_progress ∧
          (g1.typeEnum = TxnType.Payment ∧ g1.receiver = st.asa_owner ∧
            g1.amount = st.asa_price ∧ g1.sender = g0.sender ∧
            g1.sender = g2.assetReceiver) ∧
          (g2.typeEnum = TxnType.AssetTransfer ∧
            g2.sender = esc ∧
            g2.xferAsset = st.asa_id ∧ g2.assetAmount = 1)) →
      buy st inp = some (false, st)) ∧
    (∀ (st : State) (inp : EvalInput),
      ¬ (inp.group.length = 1 ∧ inp.txn.sender = st.asa_owner ∧
          st.app_state ≠ AppState.not_initialized) →
      stop_selling st inp = some (false, st)) := by
  refine ⟨?_, ?_, ?_, ?_⟩
  · intro st inp h
    by_cases h1 : st.escrow_address.isSome = true
    · simp only [initialize_escrow]
      exact if_pos (Or.inl h1)
    · by_cases h2 : st.app_admin = inp.txn.sender
      · by_cases h3 : inp.group.length = 1
        · exact absurd ⟨Option.not_isSome_iff_eq_none.mp h1, h2, h3⟩ h
        · simp only [initialize_escrow]
          exact if_pos (Or.inr (Or.inr h3))
      · simp only [initialize_escrow]
        exact if_pos (Or.inr (Or.inl h2))
  · intro st inp h
    simp only [sell]
    exact if_neg h
  · intro st inp g0 g1 g2 rest esc hG hEsc h
    rw [hG] at h
    simp only [buy, hG, hEsc]
    exact if_neg h
  · intro st inp h
    simp only [stop_selling]
    exact if_neg h

/-- Claim C3 counterexample. The buy handler on a 2-record group fails its group-size precondition yet does not return a reject: evaluation fails fatally. -/
theorem handlers_reject_cex :
    buy ⟨some [3], 7, 5, [1], 2, [2]⟩
        ⟨[⟨[4], 6, [], 0, [], 0, 0, 7, [[98, 117, 121]]⟩,
          ⟨[4], 1, [1], 5, [], 0, 0, 0, []⟩], 0⟩ = none ∧
    ¬ (buy ⟨some [3], 7, 5, [1], 2, [2]⟩
        ⟨[⟨[4], 6, [], 0, [], 0, 0, 7, [[98, 117, 121]]⟩,
          ⟨[4], 1, [1], 5, [], 0, 0, 0, []⟩], 0⟩ =
      some (false, ⟨some [3], 7, 5, [1], 2, [2]⟩)) := by
  decide

/-- Witness for the amended claim C3: concrete precondition-violating inputs for each of the four handlers, each producing a reject with the state unchanged. -/
theorem handlers_reject_without_mutation_witness :
    initialize_escrow ⟨some [9], 1, 0, [1], 1, [2]⟩
        ⟨[⟨[2], 6, [], 0, [], 0, 0, 7, [[8], [9]]⟩], 0⟩ =
      some (false, ⟨some [9], 1, 0, [1], 1, [2]⟩) ∧
    sell ⟨some [9], 1, 0, [1], 1, [2]⟩
        ⟨[⟨[5], 6, [], 0, [], 0, 0, 7, [[8], [9]]⟩], 0⟩ =
      some (false, ⟨some [9], 1, 0, [1], 1, [2]⟩) ∧
    buy ⟨some [9], 1, 0, [1], 1, [2]⟩
        ⟨[⟨[4], 6, [], 0, [], 0, 0, 7, [[8]]⟩,
          ⟨[4], 1, [1], 0, [], 0, 0, 0, []⟩,
          ⟨[9], 4, [], 0, [4], 1, 1, 0, []⟩], 0⟩ =
      some (false, ⟨some [9], 1, 0, [1], 1, [2]⟩) ∧
    stop_selling ⟨none, 0, 0, [], 0, []⟩
        ⟨[⟨[], 6, [], 0, [], 0, 0, 7, [[8]]⟩], 0⟩ =
      some (false, ⟨none, 0, 0, [], 0, []⟩) := by
  refine ⟨?_, ?_, ?_, ?_⟩
  · exact handlers_reject_without_mutation.1 ⟨some [9], 1, 0, [1], 1, [2]⟩
      ⟨[⟨[2], 6, [], 0, [], 0, 0, 7, [[8], [9]]⟩], 0⟩ (by decide)
  · exact handlers_reject_without_mutation.2.1 ⟨some [9], 1, 0, [1], 1, [2]⟩
      ⟨[⟨[5], 6, [], 0, [], 0, 0, 7, [[8], [9]]⟩], 0⟩ (by decide)
  · exact handlers_reject_without_mutation.2.2.1 ⟨some [9], 1, 0, [1], 1, [2]⟩
      ⟨[⟨[4], 6, [], 0, [], 0, 0, 7, [[8]]⟩,
        ⟨[4], 1, [1], 0, [], 0, 0, 0, []⟩,
        ⟨[9], 4, [], 0, [4], 1, 1, 0, []⟩], 0⟩
      ⟨[4], 6, [], 0, [], 0, 0, 7, [[8]]⟩
      ⟨[4], 1, [1], 0, [], 0, 0, 0, []⟩
      ⟨[9], 4, [], 0, [4], 1, 1, 0, []⟩ [] [9] rfl rfl (by decide)
  · exact handlers_reject_without_mutation.2.2.2 ⟨none, 0, 0, [], 0, []⟩
      ⟨[⟨[], 6, [], 0, [], 0, 0, 7, [[8]]⟩], 0⟩ (by decide)

/-- Claim C4 (amended). A creation call (application id 0) with exactly 3
arguments whose first argument decodes as a uint64 (at most 8 bytes) accepts
and produces a state with lifecycle NotInitialized, the asset id decoded from
argument 0, the owner set to argument 1 and the admin set to argument 2; a
3-argument creation whose first argument exceeds 8 bytes fails fatally on the
Btoi; a creation call with any other number of arguments fails fatally (failed
Assert).  In every fatal case no accept or reject decision is produced. -/
theorem creation_initializes_state :
    ∀ (st : State) (inp : EvalInput), inp.txn.applicationId = 0 →
      (∀ v : Nat, inp.txn.applicationArgs.length = 3 →
        btoi (inp.txn.applicationArgs.getD 0 []) = some v →
        application_start st inp = some (true,
          { st with
            app_state := AppState.not_initialized,
            asa_id := v,
            asa_owner := inp.txn.applicationArgs.getD 1 [],
            app_admin := inp.txn.applicationArgs.getD 2 [] })) ∧
      (inp.txn.applicationArgs.length = 3 →
        btoi (inp.txn.applicationArgs.getD 0 []) = none →
        application_start st inp = none) ∧
      (inp.txn.applicationArgs.length ≠ 3 →
        application_start st inp = none) := by
  intro st inp h0
  refine ⟨?_, ?_, ?_⟩
  · intro v h3 hv
    simp only [application_start]
    rw [if_pos h0]
    simp only [app_initialization]
    rw [if_pos h3, hv]
  · intro h3 hv
    simp only [application_start]
    rw [if_pos h0]
    simp only [app_initialization]
    rw [if_pos h3, hv]
  · intro h3
    simp only [application_start]
    rw [if_pos h0]
    simp only [app_initialization]
    rw [if_neg h3]

/-- Claim C4 counterexample. A creation call with exactly 3 arguments whose
first argument is 9 bytes long does not accept: the Btoi of that argument
fails fatally, so no resulting state is produced at all. -/
theorem creation_long_arg_fatal_cex :
    application_start ⟨none, 0, 0, [], 0, []⟩
        ⟨[⟨[7], 6, [], 0, [], 0, 0, 0,
            [[1, 0, 0, 0, 0, 0, 0, 0, 0], [1], [2]]⟩], 0⟩ = none ∧
    (⟨[⟨[7], 6, [], 0, [], 0, 0, 0,
        [[1, 0, 0, 0, 0, 0, 0, 0, 0], [1], [2]]⟩], 0⟩ :
      EvalInput).txn.applicationArgs.length = 3 ∧
    (⟨[⟨[7], 6, [], 0, [], 0, 0, 0,
        [[1, 0, 0, 0, 0, 0, 0, 0, 0], [1], [2]]⟩], 0⟩ :
      EvalInput).txn.applicationId = 0 := by
  decide

/-- Witness for the amended claim C4: a concrete 8-bytes-or-less 3-argument
creation accepted with the decoded fields, a concrete 3-argument creation with
a 9-byte first argument failing fatally, and a concrete 2-argument creation
failing fatally. -/
theorem creation_initializes_state_witness :
    application_start ⟨none, 0, 0, [], 0, []⟩
        ⟨[⟨[7], 6, [], 0, [], 0, 0, 0, [[42], [1], [2]]⟩], 0⟩ =
      some (true, ⟨none, 42, 0, [1], 0, [2]⟩) ∧
    application_start ⟨none, 0, 0, [], 0, []⟩
        ⟨[⟨[7], 6, [], 0, [], 0, 0, 0,
            [[9, 9, 9, 9, 9, 9, 9, 9, 9], [1], [2]]⟩], 0⟩ = none ∧
    application_start ⟨none, 0, 0, [], 0, []⟩
        ⟨[⟨[7], 6, [], 0, [], 0, 0, 0, [[42], [1]]⟩], 0⟩ = none := by
  refine ⟨?_, ?_, ?_⟩
  · exact ((creation_initializes_state ⟨none, 0, 0, [], 0, []⟩
      ⟨[⟨[7], 6, [], 0, [], 0, 0, 0, [[42], [1], [2]]⟩], 0⟩ rfl).1 42
      rfl (by decide))
  · exact ((creation_initializes_state ⟨none, 0, 0, [], 0, []⟩
      ⟨[⟨[7], 6, [], 0, [], 0, 0, 0,
          [[9, 9, 9, 9, 9, 9, 9, 9, 9], [1], [2]]⟩], 0⟩ rfl).2.1
      rfl (by decide))
  · exact ((creation_initializes_state ⟨none, 0, 0, [], 0, []⟩
      ⟨[⟨[7], 6, [], 0, [], 0, 0, 0, [[42], [1]]⟩], 0⟩ rfl).2.2 (by decide))

/-- Claim C5. In every state, a sell call whose sender differs from the stored owner rejects and leaves every field unchanged. -/
theorem sell_requires_ownership :
    ∀ (st : State) (inp : EvalInput),
      inp.txn.sender ≠ st.asa_owner → sell st inp = some (false, st) := by
  intro st inp h
  simp only [sell]
  apply if_neg
  rintro ⟨-, -, hs, -⟩
  exact h hs

/-- Witness for claim C5 at a concrete non-owner sell call. -/
theorem sell_requires_ownership_witness :
    sell ⟨some [3], 42, 7, [1], 2, [2]⟩
        ⟨[⟨[5], 6, [], 0, [], 0, 0, 7, [[115], [9]]⟩], 0⟩ =
      some (false, ⟨some [3], 42, 7, [1], 2, [2]⟩) := by
  exact sell_requires_ownership ⟨some [3], 42, 7, [1], 2, [2]⟩
    ⟨[⟨[5], 6, [], 0, [], 0, 0, 7, [[115], [9]]⟩], 0⟩ (by decide)

/-- Claim C6. From a NotInitialized state, the only non-creation step that changes the lifecycle state is a successful initializeEscrow, which moves it to Active; and once the state is not NotInitialized, no sequence of non-creation steps ever returns it to NotInitialized. -/
theorem lifecycle_leaves_not_initialized_only_by_escrow :
    (∀ (st : State) (inp : EvalInput),
      st.app_state = AppState.not_initialized →
      inp.txn.applicationId ≠ 0 →
      (step st inp).app_state ≠ AppState.not_initialized →
      inp.txn.applicationArgs.get? 0 = some (strBytes "initializeEscrow") ∧
      initialize_escrow st inp = some (true, step st inp) ∧
      (step st inp).app_state = AppState.active) ∧
    (∀ (st : State) (inps : List EvalInput),
      st.app_state ≠ AppState.not_initialized →
      (∀ inp ∈ inps, inp.txn.applicationId ≠ 0) →
      (run st inps).app_state ≠ AppState.not_initialized) := by
  constructor
  · intro st inp h0 hId hne
    rcases hA : application_start st inp with _ | ⟨b, st1⟩
    · have hstep : step st inp = st := by
        unfold step
        rw [hA]
      rw [hstep] at hne
      exact absurd h0 hne
    · rcases b with _ | _
      · have hstep : step st inp = st := by
          unfold step
          rw [hA]
        rw [hstep] at hne
        exact absurd h0 hne
      · have hstep : step st inp = st1 := by
          unfold step
          rw [hA]
        rw [hstep]
        simp only [application_start] at hA
        rw [if_neg hId] at hA
        split at hA
        · simp at hA
        next a0 heq =>
          split at hA
          next hb =>
            have hsp := (buy_accept hA).2
            rw [h0] at hsp
            exact absurd hsp (by decide)
          next hb =>
            split at hA
            next hi =>
              refine ⟨?_, hA, initialize_escrow_accept hA⟩
              rw [heq, hi]
            next hi =>
              split at hA
              next hs =>
                exact absurd h0 (stop_selling_accept hA).2
              next hs =>
                split at hA
                next hl =>
                  have hsp := (sell_accept hA).2
                  rw [h0] at hsp
                  rcases hsp with h1 | h1 <;> exact absurd h1 (by decide)
                next hl => simp at hA
  · intro st inps
    revert st
    induction inps with
    | nil =>
        intro st h _
        exact h
    | cons i t ih =>
        intro st h hall
        exact ih (step st i)
          (step_preserves_nonzero_state (hall i (List.mem_cons_self i t)) h)
          (fun x hx => hall x (List.mem_cons_of_mem i hx))

/-- Witness for claim C6: a concrete successful escrow initialization and a concrete run staying away from NotInitialized. -/
theorem lifecycle_leaves_not_initialized_only_by_escrow_witness :
    initialize_escrow ⟨none, 42, 0, [1], 0, [2]⟩
        ⟨[⟨[2], 6, [], 0, [], 0, 0, 7,
            [[105, 110, 105, 116, 105, 97, 108, 105, 122, 101, 69, 115, 99,
              114, 111, 119], [3]]⟩], 0⟩ =
      some (true, step ⟨none, 42, 0, [1], 0, [2]⟩
        ⟨[⟨[2], 6, [], 0, [], 0, 0, 7,
            [[105, 110, 105, 116, 105, 97, 108, 105, 122, 101, 69, 115, 99,
              114, 111, 119], [3]]⟩], 0⟩) ∧
    (run ⟨some [3], 42, 0, [1], 1, [2]⟩
        [⟨[⟨[1], 6, [], 0, [], 0, 0, 7, [[115]]⟩], 0⟩]).app_state ≠
      AppState.not_initialized := by
  constructor
  · exact (lifecycle_leaves_not_initialized_only_by_escrow.1
      ⟨none, 42, 0, [1], 0, [2]⟩
      ⟨[⟨[2], 6, [], 0, [], 0, 0, 7,
          [[105, 110, 105, 116, 105, 97, 108, 105, 122, 101, 69, 115, 99,
            114, 111, 119], [3]]⟩], 0⟩
      rfl (by decide) (by decide)).2.1
  · exact lifecycle_leaves_not_initialized_only_by_escrow.2
      ⟨some [3], 42, 0, [1], 1, [2]⟩
      [⟨[⟨[1], 6, [], 0, [], 0, 0, 7, [[115]]⟩], 0⟩]
      (by decide) (by decide)

/-- Claim C7. In an Active state, a stopSelling call in a singleton group from the stored owner accepts and returns exactly the pre-state, and repeating the call any number of times leaves the state fixed. -/
theorem stop_selling_idempotent_when_active :
    ∀ (st : State) (inp : EvalInput),
      st.app_state = AppState.active →
      inp.group.length = 1 →
      inp.txn.sender = st.asa_owner →
      stop_selling st inp = some (true, st) ∧
      (inp.txn.applicationId ≠ 0 →
        inp.txn.applicationArgs.get? 0 = some (strBytes "stopSelling") →
        ∀ n : Nat, run st (List.replicate n inp) = st) := by
  intro st inp hActive hLen hSend
  have hstop : stop_selling st inp = some (true, st) := by
    simp only [stop_selling]
    rw [if_pos ⟨hLen, hSend, by rw [hActive]; decide⟩,
      state_set_active_self hActive]
  refine ⟨hstop, ?_⟩
  intro hId hArg n
  have hAS : application_start st inp = some (true, st) := by
    simp only [application_start]
    rw [if_neg hId]
    split
    next heq =>
      rw [hArg] at heq
      simp at heq
    next a0 heq =>
      rw [hArg] at heq
      injection heq with h2
      subst h2
      rw [if_neg (by decide), if_neg (by decide), if_pos rfl]
      exact hstop
  have hstepEq : step st inp = st := by
    unfold step
    rw [hAS]
  induction n with
  | zero => rfl
  | succ m ih =>
      show run (step st inp) (List.replicate m inp) = st
      rw [hstepEq]
      exact ih

/-- Witness for claim C7: a concrete owner stopSelling call accepted with the state unchanged, repeated 3 times. -/
theorem stop_selling_idempotent_when_active_witness :
    stop_selling ⟨some [3], 42, 50, [4], 1, [2]⟩
        ⟨[⟨[4], 6, [], 0, [], 0, 0, 7,
            [[115, 116, 111, 112, 83, 101, 108, 108, 105, 110, 103]]⟩], 0⟩ =
      some (true, ⟨some [3], 42, 50, [4], 1, [2]⟩) ∧
    run ⟨some [3], 42, 50, [4], 1, [2]⟩
        (List.replicate 3
          ⟨[⟨[4], 6, [], 0, [], 0, 0, 7,
              [[115, 116, 111, 112, 83, 101, 108, 108, 105, 110, 103]]⟩],
            0⟩) =
      ⟨some [3], 42, 50, [4], 1, [2]⟩ := by
  constructor
  · exact (stop_selling_idempotent_when_active
      ⟨some [3], 42, 50, [4], 1, [2]⟩
      ⟨[⟨[4], 6, [], 0, [], 0, 0, 7,
          [[115, 116, 111, 112, 83, 101, 108, 108, 105, 110, 103]]⟩], 0⟩
      rfl rfl rfl).1
  · exact (stop_selling_idempotent_when_active
      ⟨some [3], 42, 50, [4], 1, [2]⟩
      ⟨[⟨[4], 6, [], 0, [], 0, 0, 7,
          [[115, 116, 111, 112, 83, 101, 108, 108, 105, 110, 103]]⟩], 0⟩
      rfl rfl rfl).2 (by decide) (by decide) 3

/-- Claim C8. Neither buy nor stopSelling ever writes the stored price, whether they accept or reject, so the price is left stale on every transition out of SellingInProgress; over the full dispatch, a change of the stored price implies the step was a successful sell call. -/
theorem asa_price_written_only_by_sell :
    (∀ (st : State) (inp : EvalInput) (b : Bool) (st1 : State),
      buy st inp = some (b, st1) → st1.asa_price = st.asa_price) ∧
    (∀ (st : State) (inp : EvalInput) (b : Bool) (st1 : State),
      stop_selling st inp = some (b, st1) → st1.asa_price = st.asa_price) ∧
    (∀ (st : State) (inp : EvalInput),
      (step st inp).asa_price ≠ st.asa_price →
      inp.txn.applicationArgs.get? 0 = some (strBytes "sell") ∧
      sell st inp = some (true, step st inp)) := by
  refine ⟨fun st inp b st1 h => buy_preserves_price h,
    fun st inp b st1 h => stop_selling_preserves_price h, ?_⟩
  intro st inp hne
  rcases hA : application_start st inp with _ | ⟨b, st1⟩
  · have hstep : step st inp = st := by
      unfold step
      rw [hA]
    exact absurd (by rw [hstep]) hne
  · rcases b with _ | _
    · have hstep : step st inp = st := by
        unfold step
        rw [hA]
      exact absurd (by rw [hstep]) hne
    · have hstep : step st inp = st1 := by
        unfold step
        rw [hA]
      rw [hstep] at hne ⊢
      simp only [application_start] at hA
      split at hA
      · exact absurd (app_initialization_preserves_price hA) hne
      · split at hA
        · simp at hA
        next a0 heq =>
          split at hA
          next hb => exact absurd (buy_preserves_price hA) hne
          next hb =>
            split at hA
            next hi => exact absurd (initialize_escrow_preserves_price hA) hne
            next hi =>
              split at hA
              next hs => exact absurd (stop_selling_preserves_price hA) hne
              next hs =>
                split at hA
                next hl =>
                  refine ⟨?_, hA⟩
                  rw [heq, hl]
                next hl => simp at hA

/-- Witness for claim C8: a concrete successful buy and a concrete stopSelling reject, both leaving the price unchanged. -/
theorem asa_price_written_only_by_sell_witness :
    (⟨some [3], 42, 100, [4], 1, [2]⟩ : State).asa_price =
      (⟨some [3], 42, 100, [1], 2, [2]⟩ : State).asa_price ∧
    (⟨some [3], 42, 100, [1], 2, [2]⟩ : State).asa_price =
      (⟨some [3], 42, 100, [1], 2, [2]⟩ : State).asa_price := by
  constructor
  · exact asa_price_written_only_by_sell.1 ⟨some [3], 42, 100, [1], 2, [2]⟩
      ⟨[⟨[4], 6, [], 0, [], 0, 0, 7, [[98, 117, 121]]⟩,
        ⟨[4], 1, [1], 100, [], 0, 0, 0, []⟩,
        ⟨[3], 4, [], 0, [4], 42, 1, 0, []⟩], 0⟩
      true ⟨some [3], 42, 100, [4], 1, [2]⟩ (by decide)
  · exact asa_price_written_only_by_sell.2.1 ⟨some [3], 42, 100, [1], 2, [2]⟩
      ⟨[⟨[9], 6, [], 0, [], 0, 0, 7, [[8]]⟩], 0⟩
      false ⟨some [3], 42, 100, [1], 2, [2]⟩ (by decide)

/-- Claim C9. The decision and result of buy depend on record 0 only through
its sender: replacing record 0 by any record with the same sender, or moving
the evaluated application call to any position, changes nothing; and any
3-record group satisfying the payment and transfer conditions (the latter
naming the stored escrow address, so the escrow key is set) is accepted with
the sender of record 0 as the new owner, with no check of the type of record 0
or of the position of the application call. -/
theorem buy_uses_record0_sender_only :
    (∀ (st : State) (g0 g0' : TxnRecord) (rest : List TxnRecord) (i j : Nat),
      g0.sender = g0'.sender →
      buy st ⟨g0 :: rest, i⟩ = buy st ⟨g0' :: rest, j⟩) ∧
    (∀ (st : State) (g0 g1 g2 : TxnRecord) (i : Nat) (esc : Bytes),
      st.escrow_address = some esc →
      st.app_state = AppState.selling_in_progress →
      (g1.typeEnum = TxnType.Payment ∧ g1.receiver = st.asa_owner ∧
        g1.amount = st.asa_price ∧ g1.sender = g0.sender ∧
        g1.sender = g2.assetReceiver) →
      (g2.typeEnum = TxnType.AssetTransfer ∧
        g2.sender = esc ∧
        g2.xferAsset = st.asa_id ∧ g2.assetAmount = 1) →
      buy st ⟨[g0, g1, g2], i⟩ =
        some (true, { st with asa_owner := g0.sender,
                              app_state := AppState.active })) := by
  constructor
  · intro st g0 g0' rest i j hsend
    rcases hE : st.escrow_address with _ | esc
    · rcases rest with _ | ⟨g1, _ | ⟨g2, t⟩⟩ <;> simp [buy, hE]
    · rcases rest with _ | ⟨g1, _ | ⟨g2, t⟩⟩
      · rfl
      · rfl
      · simp only [buy, hE, List.length_cons, hsend]
  · intro st g0 g1 g2 i esc hEsc hstate hpay hxfer
    simp only [buy, hEsc]
    rw [if_pos ⟨rfl, hstate, hpay, hxfer⟩]

/-- Witness for claim C9: buy accepts a concrete group whose record 0 is itself a payment and whose application call sits at position 2, making the sender of record 0 the new owner. -/
theorem buy_uses_record0_sender_only_witness :
    buy ⟨some [3], 42, 100, [1], 2, [2]⟩
        ⟨[⟨[4], 1, [7], 5, [8], 9, 9, 0, []⟩,
          ⟨[4], 1, [1], 100, [], 0, 0, 0, []⟩,
          ⟨[3], 4, [], 0, [4], 42, 1, 0, []⟩], 2⟩ =
      some (true, ⟨some [3], 42, 100, [4], 1, [2]⟩) := by
  exact buy_uses_record0_sender_only.2 ⟨some [3], 42, 100, [1], 2, [2]⟩
    ⟨[4], 1, [7], 5, [8], 9, 9, 0, []⟩
    ⟨[4], 1, [1], 100, [], 0, 0, 0, []⟩
    ⟨[3], 4, [], 0, [4], 42, 1, 0, []⟩ 2 [3]
    rfl rfl (by decide) (by decide)

/-- Claim C10. When initializeEscrow is called in a singleton group by the stored admin while the escrow is unset but with fewer than 2 arguments, the read of argument 1 is out of bounds and evaluation fails fatally instead of rejecting: the handler has no argument-count check. -/
theorem initialize_escrow_missing_arg_fatal :
    ∀ (st : State) (inp : EvalInput),
      inp.group.length = 1 →
      st.escrow_address = none →
      inp.txn.sender = st.app_admin →
      inp.txn.applicationArgs.length < 2 →
      initialize_escrow st inp = none := by
  intro st inp hLen hEsc hSend hArgs
  simp only [initialize_escrow]
  rw [if_neg (by
    rintro (h | h | h)
    · rw [hEsc] at h
      simp at h
    · exact h hSend.symm
    · exact h hLen)]
  rw [List.get?_eq_none.mpr (by omega)]

/-- Witness for claim C10 at a concrete 1-argument admin call. -/
theorem initialize_escrow_missing_arg_fatal_witness :
    initialize_escrow ⟨none, 0, 0, [1], 0, [2]⟩
        ⟨[⟨[2], 6, [], 0, [], 0, 0, 7, [[105]]⟩], 0⟩ = none := by
  exact initialize_escrow_missing_arg_fatal ⟨none, 0, 0, [1], 0, [2]⟩
    ⟨[⟨[2], 6, [], 0, [], 0, 0, 7, [[105]]⟩], 0⟩
    rfl rfl rfl (by decide)

end Marketplace
